import Mathlib

/-!
Verification of the Crystal Ball V12 repository: a Next.js dashboard whose
API route issues four BigQuery queries and returns a JSON object, whose
React pages derive badge colors and summary figures from a statically
imported JSON document, and whose SQL transform files rebuild warehouse
tables with CREATE OR REPLACE statements.

The development shallowly embeds each relevant piece of the source:
rows are records over Nat dates and Rat numeric columns, the BigQuery
queries are list programs implementing the SQL in the route, the route
handler is a pure function from query outcomes to a response value, and
each SQL transform file is a state-update function on a warehouse record.
-/

/-! ## Rows and response values for the API route (src/unnamed/part_002) -/

/-- A row produced by the two futures queries in the route:
SELECT trade_date, close FROM curated.futures_daily. -/
structure PriceRow where
  trade_date : Nat
  close : Rat
  deriving DecidableEq, Repr

/-- A row of forecasts.zl_latest_forecast_series as projected by the route:
SELECT target_date, forecast, lower_80, upper_80, lower_95, upper_95. -/
structure ForecastRow where
  target_date : Nat
  forecast : Rat
  lower_80 : Rat
  upper_80 : Rat
  lower_95 : Rat
  upper_95 : Rat
  deriving DecidableEq, Repr

/-- A full row of curated.futures_daily as far as the route reads it
(symbol is used in WHERE clauses, trade_date and close are selected). -/
structure FuturesRow where
  symbol : String
  trade_date : Nat
  close : Rat
  deriving DecidableEq, Repr

/-- The JSON body built by NextResponse.json on the success path of the
route: latestPrice, summary, forecastSeries, priceHistory.  The summary
row type is a parameter because the route selects it with SELECT * and
never inspects its columns.  latestPriceRows[0] || null and
summaryRows[0] || null are Option-valued heads. -/
structure DataBody (σ : Type) where
  latestPrice : Option PriceRow
  summary : Option σ
  forecastSeries : List ForecastRow
  priceHistory : List PriceRow
  deriving DecidableEq

/-- The JSON payload of a response: either the data object or the error
object built in the catch block. -/
inductive Payload (σ : Type) where
  | data (body : DataBody σ)
  | errorObj (message : String)
  deriving DecidableEq

/-- A NextResponse as the route produces it, together with the console
log lines emitted while handling the request. -/
structure ApiResponse (σ : Type) where
  status : Nat
  payload : Payload σ
  log : List String
  deriving DecidableEq

/-- The constant error message of the catch block:
NextResponse.json({ error: 'Failed to fetch ZL data' }, { status: 500 }). -/
def failedFetchMessage : String := "Failed to fetch ZL data"

/-- The console.error prefix of the catch block. -/
def logLinePrefix : String := "Error fetching ZL data: "

/-- The response built by the catch block of the route: it logs the error
and returns the generic error object with HTTP status 500. -/
def catchResponse (σ : Type) (e : String) : ApiResponse σ :=
  { status := 500
    payload := .errorObj failedFetchMessage
    log := [logLinePrefix ++ e] }

/-- The body of the GET handler of src/unnamed/part_002, as a function of
the outcome of each of its four bigquery.query calls (each call either
returns a list of rows or throws).  The calls run in order; the first
throw reaches the catch block and later calls never run.  On the success
path the handler shapes latestPriceRows[0] || null, summaryRows[0] || null,
forecastSeriesRows || [], priceHistoryRows || [] into the JSON body. -/
def GETcore {σ : Type} (r1 : Except String (List PriceRow))
    (r2 : Except String (List σ))
    (r3 : Except String (List ForecastRow))
    (r4 : Except String (List PriceRow)) : ApiResponse σ :=
  match r1 with
  | .error e => catchResponse σ e
  | .ok latestPriceRows =>
    match r2 with
    | .error e => catchResponse σ e
    | .ok summaryRows =>
      match r3 with
      | .error e => catchResponse σ e
      | .ok forecastSeriesRows =>
        match r4 with
        | .error e => catchResponse σ e
        | .ok priceHistoryRows =>
          { status := 200
            payload := .data
              { latestPrice := latestPriceRows.head?
                summary := summaryRows.head?
                forecastSeries := forecastSeriesRows
                priceHistory := priceHistoryRows }
            log := [] }

/-- Whether all four bigquery.query calls of the handler succeed. -/
def queriesOk {σ : Type} (r1 : Except String (List PriceRow))
    (r2 : Except String (List σ))
    (r3 : Except String (List ForecastRow))
    (r4 : Except String (List PriceRow)) : Bool :=
  (match r1 with | .ok _ => true | .error _ => false) &&
  (match r2 with | .ok _ => true | .error _ => false) &&
  (match r3 with | .ok _ => true | .error _ => false) &&
  (match r4 with | .ok _ => true | .error _ => false)

/-- Number of bigquery.query invocations the handler performs, following
its straight-line control flow: the first call always runs, and each
later call runs only when every earlier call succeeded. -/
def GETqueryCalls {σ : Type} (r1 : Except String (List PriceRow))
    (r2 : Except String (List σ))
    (r3 : Except String (List ForecastRow))
    (r4 : Except String (List PriceRow)) : Nat :=
  match r1 with
  | .error _ => 1
  | .ok _ =>
    match r2 with
    | .error _ => 2
    | .ok _ =>
      match r3 with
      | .error _ => 3
      | .ok _ =>
        match r4 with
        | .error _ => 4
        | .ok _ => 4

/-! ## The BigQuery tables the route reads and the SQL it sends

Dates are modelled as Nat (day numbers); the DATE_SUB(CURRENT_DATE(),
INTERVAL 1 YEAR) boundary of the history query is a cutoff parameter,
since calendar arithmetic happens inside BigQuery, not in this code. -/

/-- The BigQuery state visible to the route.  σ is the (uninspected) row
type of forecasts.zl_latest_run_summary. -/
structure Database (σ : Type) where
  futures_daily : List FuturesRow
  zl_latest_run_summary : List σ
  zl_latest_forecast_series : List ForecastRow

/-- Descending trade_date order used by ORDER BY trade_date DESC. -/
def frDesc (a b : FuturesRow) : Prop := b.trade_date ≤ a.trade_date

instance : DecidableRel frDesc := fun a b =>
  inferInstanceAs (Decidable (b.trade_date ≤ a.trade_date))

instance : IsTotal FuturesRow frDesc :=
  ⟨fun a b => (Nat.le_total a.trade_date b.trade_date).symm⟩

instance : IsTrans FuturesRow frDesc :=
  ⟨fun _ _ _ hab hbc => Nat.le_trans hbc hab⟩

/-- Ascending trade_date order used by ORDER BY trade_date ASC. -/
def frAsc (a b : FuturesRow) : Prop := a.trade_date ≤ b.trade_date

instance : DecidableRel frAsc := fun a b =>
  inferInstanceAs (Decidable (a.trade_date ≤ b.trade_date))

instance : IsTotal FuturesRow frAsc :=
  ⟨fun a b => Nat.le_total a.trade_date b.trade_date⟩

instance : IsTrans FuturesRow frAsc :=
  ⟨fun _ _ _ hab hbc => Nat.le_trans hab hbc⟩

/-- Ascending target_date order used by ORDER BY target_date ASC. -/
def fcAsc (a b : ForecastRow) : Prop := a.target_date ≤ b.target_date

instance : DecidableRel fcAsc := fun a b =>
  inferInstanceAs (Decidable (a.target_date ≤ b.target_date))

instance : IsTotal ForecastRow fcAsc :=
  ⟨fun a b => Nat.le_total a.target_date b.target_date⟩

instance : IsTrans ForecastRow fcAsc :=
  ⟨fun _ _ _ hab hbc => Nat.le_trans hab hbc⟩

/-- Ascending trade_date order on projected price rows. -/
def prAsc (a b : PriceRow) : Prop := a.trade_date ≤ b.trade_date

/-- The projection SELECT trade_date, close. -/
def projPrice (r : FuturesRow) : PriceRow :=
  { trade_date := r.trade_date, close := r.close }

/-- WHERE symbol = 'ZL' over curated.futures_daily. -/
def zlRows {σ : Type} (db : Database σ) : List FuturesRow :=
  db.futures_daily.filter (fun r => r.symbol == "ZL")

/-- WHERE symbol = 'ZL' AND trade_date >= DATE_SUB(CURRENT_DATE(),
INTERVAL 1 YEAR), with the one-year boundary as the cutoff parameter. -/
def zlRecentRows {σ : Type} (db : Database σ) (cutoff : Nat) : List FuturesRow :=
  db.futures_daily.filter
    (fun r => r.symbol == "ZL" && decide (cutoff ≤ r.trade_date))

/-- First route query: SELECT trade_date, close FROM curated.futures_daily
WHERE symbol = 'ZL' ORDER BY trade_date DESC LIMIT 1. -/
def latestPriceQuery {σ : Type} (db : Database σ) : List PriceRow :=
  ((List.insertionSort frDesc (zlRows db)).take 1).map projPrice

/-- Second route query: SELECT * FROM forecasts.zl_latest_run_summary. -/
def summaryQuery {σ : Type} (db : Database σ) : List σ :=
  db.zl_latest_run_summary

/-- Third route query: SELECT target_date, forecast, lower_80, upper_80,
lower_95, upper_95 FROM forecasts.zl_latest_forecast_series ORDER BY
target_date ASC.  The projection keeps every modelled column. -/
def forecastQuery {σ : Type} (db : Database σ) : List ForecastRow :=
  List.insertionSort fcAsc db.zl_latest_forecast_series

/-- Fourth route query: SELECT trade_date, close FROM curated.futures_daily
WHERE symbol = 'ZL' AND trade_date >= DATE_SUB(CURRENT_DATE(), INTERVAL
1 YEAR) ORDER BY trade_date ASC. -/
def priceHistoryQuery {σ : Type} (db : Database σ) (cutoff : Nat) : List PriceRow :=
  (List.insertionSort frAsc (zlRecentRows db cutoff)).map projPrice

/-- The GET handler on an execution where every bigquery.query call
succeeds and returns the result of evaluating its SQL against db. -/
def GEThandler {σ : Type} (db : Database σ) (cutoff : Nat) : ApiResponse σ :=
  GETcore (.ok (latestPriceQuery db)) (.ok (summaryQuery db))
    (.ok (forecastQuery db)) (.ok (priceHistoryQuery db cutoff))

/-! ## The dashboard pages (src/dashboard/src/app/page.tsx and
src/dashboard/src/app/sentiment/page.tsx)

Both pages import dashboard_data.json statically and render
unconditionally from it; numbers are modelled as Rat, JS optional
chaining with || fallback as Option.getD. -/

/-- The current block of a weather region, as read by the home page
(region.current?.drought_index || 0). -/
structure CurrentWeather where
  drought_index : Option Rat
  deriving DecidableEq, Repr

/-- A weather region value from Object.values(weather || {}). -/
structure WeatherRegion where
  current : Option CurrentWeather
  deriving DecidableEq, Repr

/-- market_data.soybean_oil as read by the home page. -/
structure SoybeanOilData where
  current_price : Option Rat
  change_percent : Option Rat
  volume : Option Rat
  high_52w : Option Rat
  low_52w : Option Rat
  deriving DecidableEq, Repr

/-- The sentiment block of dashboard_data.json. -/
structure SentimentData where
  overall_sentiment : Rat
  sentiment_trend : String
  deriving DecidableEq, Repr

/-- An alert entry of dashboard_data.json, with the fields the pages
read (type for filtering, severity for styling, message for display). -/
structure AlertItem where
  type : String
  severity : String
  message : String
  deriving DecidableEq, Repr

/-- The statically imported dashboard_data.json as destructured by the
home page; weather is the list Object.values(weather || {}). -/
structure DashboardData where
  weather : Option (List WeatherRegion)
  sentiment : Option SentimentData
  soybean_oil : Option SoybeanOilData
  alerts : Option (List AlertItem)
  deriving DecidableEq, Repr

/-- The drought contribution of one region in the reduce of the home
page: region.current?.drought_index || 0. -/
def droughtVal (r : WeatherRegion) : Rat :=
  (r.current.bind CurrentWeather.drought_index).getD 0

/-- avgDroughtRisk of the home page: Object.values(weather || {}), then
weatherRegions.length > 0 ? reduce((sum, region) => sum +
(region.current?.drought_index || 0), 0) / weatherRegions.length : 0. -/
def avgDroughtRisk (weather : Option (List WeatherRegion)) : Rat :=
  let weatherRegions := weather.getD []
  if 0 < weatherRegions.length then
    (weatherRegions.foldl (fun sum region => sum + droughtVal region) 0)
      / (weatherRegions.length : Rat)
  else 0

/-- modelAccuracy of the home page:
Math.min(95, Math.max(75, 85 + (overallSentiment * 10))). -/
def modelAccuracy (overallSentiment : Rat) : Rat :=
  min 95 (max 75 (85 + overallSentiment * 10))

/-- getSentimentBadge of the home page, rendered as the badge CSS
color class and label it returns. -/
def homeGetSentimentBadge (sentiment : Rat) : String × String :=
  if sentiment > 1/10 then ("bg-green-600", "Positive")
  else if sentiment < -(1/10) then ("destructive", "Negative")
  else ("secondary", "Neutral")

/-- getSentimentColor of the home page. -/
def homeGetSentimentColor (sentiment : Rat) : String :=
  if sentiment > 1/10 then "text-green-400"
  else if sentiment < -(1/10) then "text-red-400"
  else "text-yellow-400"

/-- getSentimentColor of the sentiment page. -/
def sentGetSentimentColor (value : Rat) : String :=
  if value > 7/10 then "text-green-600"
  else if value > 1/2 then "text-blue-600"
  else if value > 3/10 then "text-yellow-600"
  else "text-red-600"

/-- The signal rule stated by the spec, written from its words: green
when the forecast exceeds 1.02 times the current price, red below 0.98
times it, yellow otherwise.  Kept separate from the source embeddings to
compare the spec against the code. -/
def specSignalColor (forecast currentPrice : Rat) : String :=
  if forecast > 102/100 * currentPrice then "green"
  else if forecast < 98/100 * currentPrice then "red"
  else "yellow"

/-- The alerts panel of the home page: realAlerts.length > 0 renders the
list, otherwise the No active alerts fallback. -/
inductive AlertsSection where
  | list (alerts : List AlertItem)
  | noActiveAlerts
  deriving DecidableEq, Repr

/-- The derived values the home page computes from the imported JSON
before rendering. -/
structure HomeDerived where
  currentPrice : Rat
  priceChange : Rat
  volume : Rat
  high52w : Rat
  low52w : Rat
  overallSentiment : Rat
  sentimentTrend : String
  avgDrought : Rat
  accuracy : Rat
  alertsSection : AlertsSection
  deriving DecidableEq, Repr

/-- A page render outcome.  The loading, errorText and noData
constructors exist so the absence of those states in the code can be
stated; content carries the view actually rendered. -/
inductive PageRender (ν : Type) where
  | loading
  | errorText (message : String)
  | noData
  | content (view : ν)
  deriving DecidableEq

/-- The derived values of the home page, translated line by line from
HomePage: each JS x?.field || fallback becomes an Option read. -/
def homeDerived (d : DashboardData) : HomeDerived :=
  { currentPrice := (d.soybean_oil.bind SoybeanOilData.current_price).getD 0
    priceChange := (d.soybean_oil.bind SoybeanOilData.change_percent).getD 0
    volume := (d.soybean_oil.bind SoybeanOilData.volume).getD 0
    high52w := (d.soybean_oil.bind SoybeanOilData.high_52w).getD 0
    low52w := (d.soybean_oil.bind SoybeanOilData.low_52w).getD 0
    overallSentiment := (d.sentiment.map SentimentData.overall_sentiment).getD 0
    sentimentTrend := (d.sentiment.map SentimentData.sentiment_trend).getD "neutral"
    avgDrought := avgDroughtRisk d.weather
    accuracy := modelAccuracy ((d.sentiment.map SentimentData.overall_sentiment).getD 0)
    alertsSection :=
      if 0 < (d.alerts.getD []).length then .list (d.alerts.getD [])
      else .noActiveAlerts }

/-- The home page render function: the component has no fetch, no
loading branch and no error branch; it always returns its full markup,
built from the derived values. -/
def homePage (d : DashboardData) : PageRender HomeDerived :=
  .content (homeDerived d)

/-- JS String.prototype.includes via splitOn: a pattern occurs in s
exactly when splitting s on it yields more than one part. -/
def strIncludes (s pat : String) : Bool :=
  (s.splitOn pat).length != 1

/-- The derived values of the sentiment page: it destructures sentiment
and alerts from the imported JSON without guards and filters alerts
whose type includes the word sentiment. -/
structure SentimentDerived where
  overallSentiment : Rat
  sentimentTrend : String
  sentimentAlerts : List AlertItem
  deriving DecidableEq, Repr

/-- SentimentPage derived values, translated from the component body. -/
def sentimentDerived (sentiment : SentimentData) (alerts : List AlertItem) :
    SentimentDerived :=
  { overallSentiment := sentiment.overall_sentiment
    sentimentTrend := sentiment.sentiment_trend
    sentimentAlerts := alerts.filter (fun a => strIncludes a.type "sentiment") }

/-- The sentiment page render function: like the home page it has no
fetch and renders its content unconditionally. -/
def sentimentPage (sentiment : SentimentData) (alerts : List AlertItem) :
    PageRender SentimentDerived :=
  .content (sentimentDerived sentiment alerts)

/-- The page states named by the spec (loading, a flat error string, a
no-data fallback), as a test on render outcomes; written from the spec
to compare with what the pages produce. -/
def isSpecPageState {ν : Type} : PageRender ν → Bool
  | .loading => true
  | .errorText _ => true
  | .noData => true
  | .content _ => false

/-! ## The SQL transform files

src/unnamed/part_001 builds curated.economic_indicators from the three
raw FRED tables; src/sql_transforms/features/economic_features.sql
builds features.economic_features from it; and
src/sql_transforms/models/arima_interest_rate.sql trains the ARIMA_PLUS
model from the features table.  SAFE_CAST of a FRED value string, the
square root inside STDDEV and the ARIMA training itself are BigQuery
primitives, so they are parameters of the embedding. -/

/-- A row of a raw FRED table: a date and a nullable STRING value. -/
structure FredRow where
  date : Nat
  value : Option String
  deriving DecidableEq, Repr

/-- A row of curated.economic_indicators: the pivoted daily series. -/
structure EconRow where
  trade_date : Nat
  interest_rate_10y : Option Rat
  fx_brazil_usd : Option Rat
  fx_china_usd : Option Rat
  deriving DecidableEq, Repr

/-- A row of features.economic_features. -/
structure FeatRow where
  trade_date : Nat
  interest_rate_10y : Option Rat
  fx_brazil_usd : Option Rat
  fx_china_usd : Option Rat
  avg_interest_rate_20d : Option Rat
  avg_fx_brazil_20d : Option Rat
  avg_fx_china_20d : Option Rat
  avg_interest_rate_50d : Option Rat
  avg_fx_brazil_50d : Option Rat
  avg_fx_china_50d : Option Rat
  vol_interest_rate_20d : Option Rat
  vol_fx_brazil_20d : Option Rat
  vol_fx_china_20d : Option Rat
  deriving DecidableEq, Repr

/-- The fred_unioned CTE: each raw table tagged with its series_id. -/
def fredUnioned (dgs10 dexbzus dexchus : List FredRow) :
    List (Nat × Option String × String) :=
  dgs10.map (fun r => (r.date, r.value, "DGS10")) ++
  dexbzus.map (fun r => (r.date, r.value, "DEXBZUS")) ++
  dexchus.map (fun r => (r.date, r.value, "DEXCHUS"))

/-- A row of the cleaned_data CTE after the WHERE and the SAFE_CAST. -/
structure CleanedRow where
  trade_date : Nat
  series_id : String
  value : Option Rat
  deriving DecidableEq, Repr

/-- The cleaned_data CTE: keep rows WHERE value IS NOT NULL AND value
!= '.', then SAFE_CAST(value AS FLOAT64), with the cast semantics passed
in as safeCast. -/
def cleanedData (safeCast : String → Option Rat)
    (u : List (Nat × Option String × String)) : List CleanedRow :=
  u.filterMap (fun t =>
    match t.2.1 with
    | none => none
    | some str =>
      if str = "." then none
      else some { trade_date := t.1, series_id := t.2.2, value := safeCast str })

/-- MAX(CASE WHEN series_id = sid THEN value END) within the group of a
given trade_date: the SQL MAX ignores NULLs. -/
def seriesMax (c : List CleanedRow) (d : Nat) (sid : String) : Option Rat :=
  ((c.filter (fun r => r.trade_date == d && r.series_id == sid)).filterMap
    CleanedRow.value).max?

/-- Descending order on Nat dates for ORDER BY 1 DESC. -/
def natDesc (a b : Nat) : Prop := b ≤ a

instance : DecidableRel natDesc := fun a b =>
  inferInstanceAs (Decidable (b ≤ a))

instance : IsTotal Nat natDesc := ⟨fun a b => (Nat.le_total a b).symm⟩

instance : IsTrans Nat natDesc := ⟨fun _ _ _ hab hbc => Nat.le_trans hbc hab⟩

/-- The body of src/unnamed/part_001: union the FRED tables, clean, then
GROUP BY trade_date pivoting each series with MAX(CASE ...), ordered by
trade_date DESC. -/
def economicIndicatorsQuery (safeCast : String → Option Rat)
    (dgs10 dexbzus dexchus : List FredRow) : List EconRow :=
  let c := cleanedData safeCast (fredUnioned dgs10 dexbzus dexchus)
  let dates := (c.map CleanedRow.trade_date).dedup
  (List.insertionSort natDesc dates).map (fun d =>
    { trade_date := d
      interest_rate_10y := seriesMax c d "DGS10"
      fx_brazil_usd := seriesMax c d "DEXBZUS"
      fx_china_usd := seriesMax c d "DEXCHUS" })

/-- LAST_VALUE(x IGNORE NULLS) OVER (ORDER BY trade_date ROWS BETWEEN
UNBOUNDED PRECEDING AND CURRENT ROW), computed by streaming the column
in window order and carrying the last non-null value seen. -/
def ffillFrom (acc : Option Rat) : List (Option Rat) → List (Option Rat)
  | [] => []
  | x :: xs =>
    match x with
    | some v => some v :: ffillFrom (some v) xs
    | none => acc :: ffillFrom acc xs

/-- Forward fill of a column, starting with no value seen. -/
def ffill (xs : List (Option Rat)) : List (Option Rat) := ffillFrom none xs

/-- The window ROWS BETWEEN pre PRECEDING AND CURRENT ROW at row i of a
column: the entries from index i - pre (truncated at 0) through i. -/
def windowSlice (pre i : Nat) (xs : List (Option Rat)) : List (Option Rat) :=
  (xs.take (i + 1)).drop (i - pre)

/-- SQL AVG over a window: the mean of the non-null entries, NULL when
every entry is null. -/
def sqlAvgOpt (xs : List (Option Rat)) : Option Rat :=
  if (xs.filterMap id).length = 0 then none
  else some ((xs.filterMap id).sum / ((xs.filterMap id).length : Rat))

/-- SQL STDDEV (sample standard deviation) over a window: NULL unless at
least two entries are non-null; the square root is the BigQuery float
primitive, passed in as sq. -/
def sqlStddev (sq : Rat → Rat) (xs : List (Option Rat)) : Option Rat :=
  let vs := xs.filterMap id
  if vs.length < 2 then none
  else
    let m := vs.sum / (vs.length : Rat)
    some (sq ((vs.map (fun v => (v - m) * (v - m))).sum / ((vs.length : Rat) - 1)))

/-- Ascending trade_date order on indicator rows, the window order of
the daily_data CTE. -/
def ecAsc (a b : EconRow) : Prop := a.trade_date ≤ b.trade_date

instance : DecidableRel ecAsc := fun a b =>
  inferInstanceAs (Decidable (a.trade_date ≤ b.trade_date))

instance : IsTotal EconRow ecAsc :=
  ⟨fun a b => Nat.le_total a.trade_date b.trade_date⟩

instance : IsTrans EconRow ecAsc :=
  ⟨fun _ _ _ hab hbc => Nat.le_trans hab hbc⟩

/-- The indicator rows arranged in the window order ORDER BY trade_date. -/
def sortedEcon (rows : List EconRow) : List EconRow :=
  List.insertionSort ecAsc rows

/-- The interest_rate_10y column in window order. -/
def colIR (rows : List EconRow) : List (Option Rat) :=
  (sortedEcon rows).map EconRow.interest_rate_10y

/-- The fx_brazil_usd column in window order. -/
def colBZ (rows : List EconRow) : List (Option Rat) :=
  (sortedEcon rows).map EconRow.fx_brazil_usd

/-- The fx_china_usd column in window order. -/
def colCH (rows : List EconRow) : List (Option Rat) :=
  (sortedEcon rows).map EconRow.fx_china_usd

/-- Row i of features.economic_features: the forward-filled columns of
the daily_data CTE and the outer SELECT window aggregates over them. -/
def featAt (sq : Rat → Rat) (dates : List Nat) (ir bz ch : List (Option Rat))
    (i : Nat) : FeatRow :=
  { trade_date := dates.getD i 0
    interest_rate_10y := (ffill ir).getD i none
    fx_brazil_usd := (ffill bz).getD i none
    fx_china_usd := (ffill ch).getD i none
    avg_interest_rate_20d := sqlAvgOpt (windowSlice 19 i (ffill ir))
    avg_fx_brazil_20d := sqlAvgOpt (windowSlice 19 i (ffill bz))
    avg_fx_china_20d := sqlAvgOpt (windowSlice 19 i (ffill ch))
    avg_interest_rate_50d := sqlAvgOpt (windowSlice 49 i (ffill ir))
    avg_fx_brazil_50d := sqlAvgOpt (windowSlice 49 i (ffill bz))
    avg_fx_china_50d := sqlAvgOpt (windowSlice 49 i (ffill ch))
    vol_interest_rate_20d := sqlStddev sq (windowSlice 19 i (ffill ir))
    vol_fx_brazil_20d := sqlStddev sq (windowSlice 19 i (ffill bz))
    vol_fx_china_20d := sqlStddev sq (windowSlice 19 i (ffill ch)) }

/-- features.economic_features in ascending window order, one output row
per input row. -/
def economicFeaturesAsc (sq : Rat → Rat) (rows : List EconRow) : List FeatRow :=
  (List.range (sortedEcon rows).length).map
    (featAt sq ((sortedEcon rows).map EconRow.trade_date)
      (colIR rows) (colBZ rows) (colCH rows))

/-- The body of economic_features.sql: the windowed computation with the
final ORDER BY trade_date DESC. -/
def economicFeaturesQuery (sq : Rat → Rat) (rows : List EconRow) : List FeatRow :=
  (economicFeaturesAsc sq rows).reverse

/-- The training input of arima_interest_rate.sql: SELECT trade_date,
interest_rate_10y FROM features.economic_features WHERE
interest_rate_10y IS NOT NULL. -/
def arimaInput (feats : List FeatRow) : List (Nat × Rat) :=
  feats.filterMap (fun r => r.interest_rate_10y.map (fun v => (r.trade_date, v)))

/-- The warehouse datasets touched by the three transform files.  μ is
the opaque payload of the trained BigQuery ML model. -/
structure WarehouseState (μ : Type) where
  raw_fred_dgs10 : List FredRow
  raw_fred_dexbzus : List FredRow
  raw_fred_dexchus : List FredRow
  curated_economic_indicators : List EconRow
  features_economic_features : List FeatRow
  models_arima_interest_rate : Option μ

/-- Running src/unnamed/part_001: CREATE OR REPLACE TABLE
curated.economic_indicators AS ... fully replaces the target with the
query result over the raw FRED tables. -/
def runEconomicIndicators {μ : Type} (safeCast : String → Option Rat)
    (s : WarehouseState μ) : WarehouseState μ :=
  { s with curated_economic_indicators :=
      (economicIndicatorsQuery safeCast s.raw_fred_dgs10 s.raw_fred_dexbzus
        s.raw_fred_dexchus) }

/-- Running economic_features.sql: CREATE OR REPLACE TABLE
features.economic_features AS ... fully replaces the target with the
query result over curated.economic_indicators. -/
def runEconomicFeatures {μ : Type} (sq : Rat → Rat)
    (s : WarehouseState μ) : WarehouseState μ :=
  { s with features_economic_features :=
      economicFeaturesQuery sq s.curated_economic_indicators }

/-- Running arima_interest_rate.sql: CREATE OR REPLACE MODEL ... fully
replaces the model with the result of training on the feature table;
train is the opaque BigQuery ML ARIMA_PLUS fit. -/
def runArimaInterestRate {μ : Type} (train : List (Nat × Rat) → μ)
    (s : WarehouseState μ) : WarehouseState μ :=
  { s with models_arima_interest_rate := some (train (arimaInput s.features_economic_features)) }

/-! ## Helper definitions for the statements and witnesses -/

/-- The last non-null value of a column segment, with a fallback carried
in from earlier rows; the reference value of forward fill. -/
def lastNonNull (acc : Option Rat) (xs : List (Option Rat)) : Option Rat :=
  match (xs.filterMap id).getLast? with
  | some v => some v
  | none => acc

/-- A concrete BigQuery state used to witness the success-path theorem
of the route. -/
def dbW : Database String :=
  { futures_daily :=
      [{ symbol := "ZL", trade_date := 10, close := 5 },
       { symbol := "ZL", trade_date := 12, close := 6 },
       { symbol := "ZS", trade_date := 11, close := 7 },
       { symbol := "ZL", trade_date := 2, close := 3 }]
    zl_latest_run_summary := ["run-2025-09-01"]
    zl_latest_forecast_series :=
      [{ target_date := 20, forecast := 1, lower_80 := 1, upper_80 := 1, lower_95 := 1, upper_95 := 1 },
       { target_date := 18, forecast := 2, lower_80 := 2, upper_80 := 2, lower_95 := 2, upper_95 := 2 }] }

/-- A concrete indicator table used to witness the feature-transform
theorem. -/
def econW : List EconRow :=
  [{ trade_date := 3, interest_rate_10y := none, fx_brazil_usd := some 8, fx_china_usd := some 1 },
   { trade_date := 1, interest_rate_10y := some 4, fx_brazil_usd := some 2, fx_china_usd := some 1 },
   { trade_date := 2, interest_rate_10y := some 6, fx_brazil_usd := none, fx_china_usd := some 1 }]

/-! ## Helper lemmas -/

theorem foldl_add_eq_sum {α : Type} (f : α → Rat) (l : List α) (a : Rat) :
    l.foldl (fun s x => s + f x) a = a + (l.map f).sum := by
  induction l generalizing a with
  | nil => simp
  | cons x xs ih => simp [ih, add_assoc]

theorem length_ffillFrom (acc : Option Rat) (xs : List (Option Rat)) :
    (ffillFrom acc xs).length = xs.length := by
  induction xs generalizing acc with
  | nil => rfl
  | cons x xs ih =>
    cases x <;> simp [ffillFrom, ih]

theorem length_ffill (xs : List (Option Rat)) : (ffill xs).length = xs.length :=
  length_ffillFrom none xs

theorem lastNonNull_cons (acc x : Option Rat) (t : List (Option Rat)) :
    lastNonNull acc (x :: t) =
      lastNonNull (match x with | some v => some v | none => acc) t := by
  cases x with
  | none => simp [lastNonNull]
  | some v =>
    unfold lastNonNull
    simp only [List.filterMap_cons]
    cases ht : t.filterMap id with
    | nil => simp
    | cons w ws =>
      cases hg : (w :: ws).getLast? with
      | none => simp at hg
      | some z => simp [hg]

theorem ffillFrom_getElem? (xs : List (Option Rat)) (acc : Option Rat) (i : Nat)
    (h : i < xs.length) :
    (ffillFrom acc xs)[i]? = some (lastNonNull acc (xs.take (i + 1))) := by
  induction xs generalizing acc i with
  | nil => simp at h
  | cons x xs ih =>
    cases i with
    | zero =>
      cases x with
      | none => simp [ffillFrom, lastNonNull]
      | some v => simp [ffillFrom, lastNonNull]
    | succ i =>
      have hi : i < xs.length := by simpa using h
      cases x with
      | none =>
        simpa [ffillFrom, List.take_succ_cons, lastNonNull_cons] using ih acc i hi
      | some v =>
        simpa [ffillFrom, List.take_succ_cons, lastNonNull_cons] using ih (some v) i hi

theorem lastNonNull_none (t : List (Option Rat)) :
    lastNonNull none t = (t.filterMap id).getLast? := by
  unfold lastNonNull
  cases (t.filterMap id).getLast? <;> simp

theorem ffill_getD (xs : List (Option Rat)) (i : Nat) (h : i < xs.length) :
    (ffill xs).getD i none = ((xs.take (i + 1)).filterMap id).getLast? := by
  rw [List.getD_eq_getElem?_getD, ffill, ffillFrom_getElem? xs none i h,
    lastNonNull_none]
  rfl

theorem length_windowSlice (pre i : Nat) (xs : List (Option Rat))
    (h : i < xs.length) :
    (windowSlice pre i xs).length = min (i + 1) (pre + 1) := by
  unfold windowSlice
  rw [List.length_drop, List.length_take]
  omega

theorem filterMap_id_length_of_no_none (xs : List (Option Rat))
    (h : ∀ v ∈ xs, v ≠ none) : (xs.filterMap id).length = xs.length := by
  induction xs with
  | nil => rfl
  | cons x t ih =>
    cases x with
    | none => exact absurd rfl (h none (List.mem_cons_self _ _))
    | some v =>
      simp only [List.filterMap_cons]
      simp only [id]
      rw [List.length_cons, List.length_cons, ih (fun w hw => h w (List.mem_cons_of_mem _ hw))]

theorem sqlAvgOpt_of_no_none (xs : List (Option Rat))
    (h : ∀ v ∈ xs, v ≠ none) (hne : xs.length ≠ 0) :
    sqlAvgOpt xs = some ((xs.filterMap id).sum / (xs.length : Rat)) := by
  have hl := filterMap_id_length_of_no_none xs h
  unfold sqlAvgOpt
  rw [hl, if_neg hne]

theorem head_insertionSort_frDesc (l : List FuturesRow) (x : FuturesRow)
    (xs : List FuturesRow) (hs : List.insertionSort frDesc l = x :: xs) :
    x ∈ l ∧ ∀ q ∈ l, q.trade_date ≤ x.trade_date := by
  have hperm : (x :: xs).Perm l := hs ▸ List.perm_insertionSort frDesc l
  have hsorted : List.Sorted frDesc (x :: xs) :=
    hs ▸ List.sorted_insertionSort frDesc l
  have hx := (List.sorted_cons.mp hsorted).1
  refine ⟨hperm.mem_iff.mp (List.mem_cons_self x xs), fun q hq => ?_⟩
  rcases List.mem_cons.mp (hperm.mem_iff.mpr hq) with hqx | hqin
  · exact hqx ▸ Nat.le_refl _
  · exact hx q hqin

/-! ## Claim theorems -/

/-- C2: the GET handler returns HTTP status 500 exactly when one of its
BigQuery queries throws; on the error path the error is logged and the
body is the generic constant error object, independent of the failure;
on the non-throwing path the status is 200, not 500. -/
theorem c2_error_path_500 {σ : Type} (r1 : Except String (List PriceRow))
    (r2 : Except String (List σ)) (r3 : Except String (List ForecastRow))
    (r4 : Except String (List PriceRow)) :
    ((GETcore r1 r2 r3 r4).status = 500 ↔ queriesOk r1 r2 r3 r4 = false) ∧
    (queriesOk r1 r2 r3 r4 = false →
      (GETcore r1 r2 r3 r4).payload = .errorObj failedFetchMessage ∧
      (GETcore r1 r2 r3 r4).log ≠ []) ∧
    (queriesOk r1 r2 r3 r4 = true → (GETcore r1 r2 r3 r4).status = 200) := by
  rcases r1 with e1 | l1 <;> rcases r2 with e2 | l2 <;>
    rcases r3 with e3 | l3 <;> rcases r4 with e4 | l4 <;>
    simp [GETcore, queriesOk, catchResponse]

/-- Witness for C2 at concrete query outcomes: one throwing execution
gets the generic 500, one all-success execution gets 200. -/
theorem c2_error_path_500_witness :
    (GETcore (σ := Nat) (.error "boom") (.ok []) (.ok []) (.ok [])).status = 500 ∧
    (GETcore (σ := Nat) (.error "boom") (.ok []) (.ok []) (.ok [])).payload =
      .errorObj failedFetchMessage ∧
    (GETcore (σ := Nat) (.error "boom") (.ok []) (.ok []) (.ok [])).log ≠ [] ∧
    (GETcore (σ := Nat) (.ok []) (.ok []) (.ok []) (.ok [])).status = 200 := by
  refine ⟨?_, ?_, ?_, ?_⟩
  · exact (c2_error_path_500 (σ := Nat) (.error "boom") (.ok []) (.ok []) (.ok [])).1.mpr rfl
  · exact ((c2_error_path_500 (σ := Nat) (.error "boom") (.ok []) (.ok []) (.ok [])).2.1 rfl).1
  · exact ((c2_error_path_500 (σ := Nat) (.error "boom") (.ok []) (.ok []) (.ok [])).2.1 rfl).2
  · exact (c2_error_path_500 (σ := Nat) (.ok []) (.ok []) (.ok []) (.ok [])).2.2 rfl

/-- C8: when all four queries succeed, the handler answers 200 (never
500) with latestPrice and summary the optional heads of their row lists
(null when the list is empty) and the two series passed through (empty
arrays when the queries returned no rows). -/
theorem c8_zero_rows_success {σ : Type} (l1 : List PriceRow) (l2 : List σ)
    (l3 : List ForecastRow) (l4 : List PriceRow) :
    (GETcore (.ok l1) (.ok l2) (.ok l3) (.ok l4)).status ≠ 500 ∧
    GETcore (.ok l1) (.ok l2) (.ok l3) (.ok l4) =
      { status := 200
        payload := .data
          { latestPrice := l1.head?
            summary := l2.head?
            forecastSeries := l3
            priceHistory := l4 }
        log := [] } := by
  exact ⟨by simp [GETcore], rfl⟩

/-- Witness for C8: all four queries succeed with zero rows; the body
has null latestPrice and summary and empty series, with status 200. -/
theorem c8_zero_rows_success_witness :
    (GETcore (σ := Nat) (.ok []) (.ok []) (.ok []) (.ok [])).status ≠ 500 ∧
    GETcore (σ := Nat) (.ok []) (.ok []) (.ok []) (.ok []) =
      { status := 200
        payload := .data
          { latestPrice := none
            summary := none
            forecastSeries := []
            priceHistory := [] }
        log := [] } :=
  c8_zero_rows_success [] [] [] []

/-- C4 counterexample: an execution of the handler in which every query
succeeds performs four bigquery.query calls, not a single one. -/
theorem c4_single_query_counterexample :
    GETqueryCalls (σ := Nat) (.ok []) (.ok []) (.ok []) (.ok []) = 4 ∧
    (4 : Nat) ≠ 1 := by
  exact ⟨rfl, by decide⟩

/-- C4 amended: the repository's one API route handler performs between
one and four BigQuery query calls per request — four when all succeed,
fewer only because a throw stops the sequence — with each query invoked
at most once (no pagination, no retry), and its only failure handling is
the generic catch-all answering 500. -/
theorem c4_query_calls_bounded {σ : Type} (r1 : Except String (List PriceRow))
    (r2 : Except String (List σ)) (r3 : Except String (List ForecastRow))
    (r4 : Except String (List PriceRow)) :
    1 ≤ GETqueryCalls r1 r2 r3 r4 ∧ GETqueryCalls r1 r2 r3 r4 ≤ 4 ∧
    (queriesOk r1 r2 r3 r4 = true → GETqueryCalls r1 r2 r3 r4 = 4) ∧
    (queriesOk r1 r2 r3 r4 = false →
      (GETcore r1 r2 r3 r4).status = 500 ∧
      (GETcore r1 r2 r3 r4).payload = .errorObj failedFetchMessage) := by
  rcases r1 with e1 | l1 <;> rcases r2 with e2 | l2 <;>
    rcases r3 with e3 | l3 <;> rcases r4 with e4 | l4 <;>
    simp [GETcore, GETqueryCalls, queriesOk, catchResponse]

/-- Witness for C4 amended, at one throwing and one successful run. -/
theorem c4_query_calls_bounded_witness :
    GETqueryCalls (σ := Nat) (.ok []) (.ok []) (.ok []) (.ok []) = 4 ∧
    (GETcore (σ := Nat) (.ok []) (.error "down") (.ok []) (.ok [])).status = 500 ∧
    (GETcore (σ := Nat) (.ok []) (.error "down") (.ok []) (.ok [])).payload =
      .errorObj failedFetchMessage := by
  refine ⟨?_, ?_, ?_⟩
  · exact (c4_query_calls_bounded (σ := Nat) (.ok []) (.ok []) (.ok []) (.ok [])).2.2.1 rfl
  · exact ((c4_query_calls_bounded (σ := Nat) (.ok []) (.error "down") (.ok []) (.ok [])).2.2.2 rfl).1
  · exact ((c4_query_calls_bounded (σ := Nat) (.ok []) (.error "down") (.ok []) (.ok [])).2.2.2 rfl).2

/-- C9: the model-accuracy figure min(95, max(75, 85 + sentiment * 10))
always lies in the closed interval from 75 to 95. -/
theorem c9_modelAccuracy_bounds (s : Rat) :
    75 ≤ modelAccuracy s ∧ modelAccuracy s ≤ 95 := by
  unfold modelAccuracy
  exact ⟨le_min (by norm_num) (le_max_left _ _), min_le_left _ _⟩

/-- C10: avgDroughtRisk never divides by zero — with no weather object
or no regions it is 0, and otherwise it is the sum of the per-region
drought indexes (0 when missing) divided by the positive region count. -/
theorem c10_avgDroughtRisk_no_div_zero (w : Option (List WeatherRegion)) :
    (w = none → avgDroughtRisk w = 0) ∧
    ((w.getD []).length = 0 → avgDroughtRisk w = 0) ∧
    (0 < (w.getD []).length →
      avgDroughtRisk w =
        ((w.getD []).map droughtVal).sum / (((w.getD []).length : Nat) : Rat)) := by
  refine ⟨?_, ?_, ?_⟩
  · rintro rfl; rfl
  · intro h
    unfold avgDroughtRisk
    simp [h]
  · intro h
    unfold avgDroughtRisk
    rw [if_pos h, foldl_add_eq_sum, zero_add]

/-- Witness for C10 at a two-region weather object, one region lacking
its drought index. -/
theorem c10_avgDroughtRisk_no_div_zero_witness :
    avgDroughtRisk none = 0 ∧
    avgDroughtRisk
        (some [{ current := some { drought_index := some 2 } }, { current := none }]) =
      (([{ current := some { drought_index := some 2 } },
          { current := none }] : List WeatherRegion).map droughtVal).sum / ((2 : Nat) : Rat) := by
  refine ⟨?_, ?_⟩
  · exact (c10_avgDroughtRisk_no_div_zero none).1 rfl
  · exact (c10_avgDroughtRisk_no_div_zero
      (some [{ current := some { drought_index := some 2 } }, { current := none }])).2.2
      (by decide)

/-- C6: each SQL transform file fully rebuilds its target from its
sources, so the target after a run is a function of the sources alone
and running a transform twice equals running it once. -/
theorem c6_transforms_idempotent {μ : Type} (safeCast : String → Option Rat)
    (sq : Rat → Rat) (train : List (Nat × Rat) → μ) (s : WarehouseState μ) :
    runEconomicIndicators safeCast (runEconomicIndicators safeCast s) =
      runEconomicIndicators safeCast s ∧
    runEconomicFeatures sq (runEconomicFeatures sq s) =
      runEconomicFeatures sq s ∧
    runArimaInterestRate train (runArimaInterestRate train s) =
      runArimaInterestRate train s ∧
    (runEconomicIndicators safeCast s).curated_economic_indicators =
      (economicIndicatorsQuery safeCast s.raw_fred_dgs10 s.raw_fred_dexbzus
        s.raw_fred_dexchus) ∧
    (runEconomicFeatures sq s).features_economic_features =
      economicFeaturesQuery sq s.curated_economic_indicators ∧
    (runArimaInterestRate train s).models_arima_interest_rate =
      some (train (arimaInput s.features_economic_features)) :=
  ⟨rfl, rfl, rfl, rfl, rfl, rfl⟩

/-- C3 counterexample: at forecast 1 and current price 1 the spec's
threshold rule dictates yellow, yet the home page's sentiment color
function at value 1 is green; and the sentiment page's color function
can return blue, a color outside the spec's three-color scheme.  The
fixed thresholds in the UI are on sentiment values, not on the
forecast-to-price ratio. -/
theorem c3_signal_thresholds_counterexample :
    specSignalColor 1 1 = "yellow" ∧
    homeGetSentimentColor 1 = "text-green-400" ∧
    homeGetSentimentBadge 1 = ("bg-green-600", "Positive") ∧
    sentGetSentimentColor (3/5) = "text-blue-600" := by
  refine ⟨?_, ?_, ?_, ?_⟩ <;>
    simp [specSignalColor, homeGetSentimentColor, homeGetSentimentBadge,
      sentGetSentimentColor] <;> norm_num

/-- C3 amended: the UI's signal colors come from fixed thresholds on the
sentiment value — the home page is green above 0.1, red below -0.1 and
yellow/neutral between; the sentiment page is green above 0.7, blue
above 0.5, yellow above 0.3 and red otherwise — not from 1.02 and 0.98
times the current price. -/
theorem c3_sentiment_thresholds (s v : Rat) :
    (1/10 < s → homeGetSentimentColor s = "text-green-400" ∧
      homeGetSentimentBadge s = ("bg-green-600", "Positive")) ∧
    (s < -(1/10) → homeGetSentimentColor s = "text-red-400" ∧
      homeGetSentimentBadge s = ("destructive", "Negative")) ∧
    (-(1/10) ≤ s → s ≤ 1/10 → homeGetSentimentColor s = "text-yellow-400" ∧
      homeGetSentimentBadge s = ("secondary", "Neutral")) ∧
    (7/10 < v → sentGetSentimentColor v = "text-green-600") ∧
    (1/2 < v → v ≤ 7/10 → sentGetSentimentColor v = "text-blue-600") ∧
    (3/10 < v → v ≤ 1/2 → sentGetSentimentColor v = "text-yellow-600") ∧
    (v ≤ 3/10 → sentGetSentimentColor v = "text-red-600") := by
  unfold homeGetSentimentColor homeGetSentimentBadge sentGetSentimentColor
  refine ⟨?_, ?_, ?_, ?_, ?_, ?_, ?_⟩ <;> intros <;>
    split_ifs <;> first | rfl | constructor <;> rfl | linarith

/-- Witness for C3 amended at sentiment 0.2 and source score 0.6. -/
theorem c3_sentiment_thresholds_witness :
    homeGetSentimentColor (1/5) = "text-green-400" ∧
    sentGetSentimentColor (3/5) = "text-blue-600" :=
  ⟨((c3_sentiment_thresholds (1/5) (3/5)).1 (by norm_num)).1,
   (c3_sentiment_thresholds (1/5) (3/5)).2.2.2.2.1 (by norm_num) (by norm_num)⟩

/-- C5 counterexample: both pages render their full content view even on
a dashboard document with every section missing or empty; neither page
ever renders a loading state, an error string, or a page-level no-data
fallback, so the three states the spec names do not occur. -/
theorem c5_three_states_counterexample :
    isSpecPageState (homePage
      { weather := none, sentiment := none, soybean_oil := none, alerts := none }) = false ∧
    isSpecPageState (sentimentPage
      { overall_sentiment := 0, sentiment_trend := "neutral" } []) = false :=
  ⟨rfl, rfl⟩

/-- C5 amended: the pages import their data statically and always render
a single content state built from the derived values; no loading, error
or page-level no-data state exists, and the only empty-data fallback is
the section-level No active alerts branch of the home page. -/
theorem c5_pages_render_content_only (d : DashboardData)
    (sent : SentimentData) (al : List AlertItem) :
    homePage d = .content (homeDerived d) ∧
    sentimentPage sent al = .content (sentimentDerived sent al) ∧
    isSpecPageState (homePage d) = false ∧
    isSpecPageState (sentimentPage sent al) = false ∧
    (homeDerived d).alertsSection =
      (if 0 < (d.alerts.getD []).length then AlertsSection.list (d.alerts.getD [])
       else AlertsSection.noActiveAlerts) :=
  ⟨rfl, rfl, rfl, rfl, rfl⟩

/-- C1: when all four queries succeed with at least one row each, the
handler returns the 200 JSON object whose four fields are the query
results verbatim: latestPrice is a ZL row of maximal trade_date, summary
is the head of the run-summary rows, forecastSeries is the forecast
table in ascending target_date order, and priceHistory is the recent ZL
close rows in ascending trade_date order. -/
theorem c1_success_response_shape {σ : Type} (db : Database σ) (cutoff : Nat)
    (h1 : latestPriceQuery db ≠ [])
    (_h2 : summaryQuery db ≠ [])
    (_h3 : forecastQuery db ≠ [])
    (_h4 : priceHistoryQuery db cutoff ≠ []) :
    ∃ body : DataBody σ,
      GEThandler db cutoff = { status := 200, payload := .data body, log := [] } ∧
      body.latestPrice = (latestPriceQuery db).head? ∧
      body.summary = (summaryQuery db).head? ∧
      body.forecastSeries = forecastQuery db ∧
      body.priceHistory = priceHistoryQuery db cutoff ∧
      (∃ r, r ∈ zlRows db ∧ body.latestPrice = some (projPrice r) ∧
        ∀ q ∈ zlRows db, q.trade_date ≤ r.trade_date) ∧
      body.forecastSeries.Perm db.zl_latest_forecast_series ∧
      List.Sorted fcAsc body.forecastSeries ∧
      body.priceHistory.Perm ((zlRecentRows db cutoff).map projPrice) ∧
      List.Sorted prAsc body.priceHistory := by
  refine ⟨{ latestPrice := (latestPriceQuery db).head?
            summary := (summaryQuery db).head?
            forecastSeries := forecastQuery db
            priceHistory := priceHistoryQuery db cutoff },
    rfl, rfl, rfl, rfl, rfl, ?_, ?_, ?_, ?_, ?_⟩
  · cases hs : List.insertionSort frDesc (zlRows db) with
    | nil =>
      exact absurd (by simp [latestPriceQuery, hs]) h1
    | cons x xs =>
      obtain ⟨hmem, hmax⟩ := head_insertionSort_frDesc (zlRows db) x xs hs
      refine ⟨x, hmem, ?_, hmax⟩
      simp [latestPriceQuery, hs]
  · exact List.perm_insertionSort fcAsc db.zl_latest_forecast_series
  · exact List.sorted_insertionSort fcAsc db.zl_latest_forecast_series
  · exact (List.perm_insertionSort frAsc (zlRecentRows db cutoff)).map projPrice
  · exact (List.sorted_insertionSort frAsc (zlRecentRows db cutoff)).map
      projPrice (fun _ _ h => h)

/-- Witness for C1 on a concrete four-row database with cutoff day 5:
every query returns at least one row and the response has the stated
shape. -/
theorem c1_success_response_shape_witness :
    (latestPriceQuery dbW ≠ [] ∧ summaryQuery dbW ≠ [] ∧
     forecastQuery dbW ≠ [] ∧ priceHistoryQuery dbW 5 ≠ []) ∧
    ∃ body : DataBody String,
      GEThandler dbW 5 = { status := 200, payload := .data body, log := [] } ∧
      body.latestPrice = (latestPriceQuery dbW).head? ∧
      body.summary = (summaryQuery dbW).head? ∧
      body.forecastSeries = forecastQuery dbW ∧
      body.priceHistory = priceHistoryQuery dbW 5 ∧
      (∃ r, r ∈ zlRows dbW ∧ body.latestPrice = some (projPrice r) ∧
        ∀ q ∈ zlRows dbW, q.trade_date ≤ r.trade_date) ∧
      body.forecastSeries.Perm dbW.zl_latest_forecast_series ∧
      List.Sorted fcAsc body.forecastSeries ∧
      body.priceHistory.Perm ((zlRecentRows dbW 5).map projPrice) ∧
      List.Sorted prAsc body.priceHistory :=
  ⟨⟨by decide, by decide, by decide, by decide⟩,
   c1_success_response_shape dbW 5 (by decide) (by decide) (by decide) (by decide)⟩

/-- C7: in the feature transform, row i of the output (in trade_date
order) carries each indicator column forward-filled — its value is the
most recent non-null entry at or before row i — and each 20-day moving
average is the SQL AVG over the window of the current row and the 19
preceding rows; when every forward-filled entry in that window is
non-null the average is the arithmetic mean of those values over the
window size min(i+1, 20). -/
theorem c7_forward_fill_and_moving_average (rows : List EconRow)
    (sq : Rat → Rat) (i : Nat) (hi : i < (sortedEcon rows).length) :
    ∃ r : FeatRow, (economicFeaturesAsc sq rows)[i]? = some r ∧
      r.interest_rate_10y = (((colIR rows).take (i + 1)).filterMap id).getLast? ∧
      r.fx_brazil_usd = (((colBZ rows).take (i + 1)).filterMap id).getLast? ∧
      r.fx_china_usd = (((colCH rows).take (i + 1)).filterMap id).getLast? ∧
      r.avg_interest_rate_20d = sqlAvgOpt (windowSlice 19 i (ffill (colIR rows))) ∧
      r.avg_fx_brazil_20d = sqlAvgOpt (windowSlice 19 i (ffill (colBZ rows))) ∧
      r.avg_fx_china_20d = sqlAvgOpt (windowSlice 19 i (ffill (colCH rows))) ∧
      (windowSlice 19 i (ffill (colIR rows))).length = min (i + 1) 20 ∧
      ((∀ v ∈ windowSlice 19 i (ffill (colIR rows)), v ≠ none) →
        r.avg_interest_rate_20d =
          some (((windowSlice 19 i (ffill (colIR rows))).filterMap id).sum /
            ((min (i + 1) 20 : Nat) : Rat))) ∧
      ((∀ v ∈ windowSlice 19 i (ffill (colBZ rows)), v ≠ none) →
        r.avg_fx_brazil_20d =
          some (((windowSlice 19 i (ffill (colBZ rows))).filterMap id).sum /
            ((min (i + 1) 20 : Nat) : Rat))) ∧
      ((∀ v ∈ windowSlice 19 i (ffill (colCH rows)), v ≠ none) →
        r.avg_fx_china_20d =
          some (((windowSlice 19 i (ffill (colCH rows))).filterMap id).sum /
            ((min (i + 1) 20 : Nat) : Rat))) := by
  have hIRlen : i < (colIR rows).length := by
    rw [colIR, List.length_map]; exact hi
  have hBZlen : i < (colBZ rows).length := by
    rw [colBZ, List.length_map]; exact hi
  have hCHlen : i < (colCH rows).length := by
    rw [colCH, List.length_map]; exact hi
  have hfIR : i < (ffill (colIR rows)).length := by rw [length_ffill]; exact hIRlen
  have hfBZ : i < (ffill (colBZ rows)).length := by rw [length_ffill]; exact hBZlen
  have hfCH : i < (ffill (colCH rows)).length := by rw [length_ffill]; exact hCHlen
  have hwinIR := length_windowSlice 19 i (ffill (colIR rows)) hfIR
  have hwinBZ := length_windowSlice 19 i (ffill (colBZ rows)) hfBZ
  have hwinCH := length_windowSlice 19 i (ffill (colCH rows)) hfCH
  refine ⟨featAt sq ((sortedEcon rows).map EconRow.trade_date)
      (colIR rows) (colBZ rows) (colCH rows) i, ?_, ?_, ?_, ?_, rfl, rfl, rfl,
    ?_, ?_, ?_, ?_⟩
  · rw [economicFeaturesAsc, List.getElem?_map, List.getElem?_range hi,
      Option.map_some']
  · exact ffill_getD (colIR rows) i hIRlen
  · exact ffill_getD (colBZ rows) i hBZlen
  · exact ffill_getD (colCH rows) i hCHlen
  · exact hwinIR
  · intro hnn
    have h0 : (windowSlice 19 i (ffill (colIR rows))).length ≠ 0 := by omega
    show sqlAvgOpt (windowSlice 19 i (ffill (colIR rows))) = _
    rw [sqlAvgOpt_of_no_none _ hnn h0, hwinIR]
  · intro hnn
    have h0 : (windowSlice 19 i (ffill (colBZ rows))).length ≠ 0 := by omega
    show sqlAvgOpt (windowSlice 19 i (ffill (colBZ rows))) = _
    rw [sqlAvgOpt_of_no_none _ hnn h0, hwinBZ]
  · intro hnn
    have h0 : (windowSlice 19 i (ffill (colCH rows))).length ≠ 0 := by omega
    show sqlAvgOpt (windowSlice 19 i (ffill (colCH rows))) = _
    rw [sqlAvgOpt_of_no_none _ hnn h0, hwinCH]

/-- Witness for C7 at row 2 of a concrete three-row indicator table
whose interest-rate column starts null: every part of the statement is
realized, including the all-non-null window means of the fx columns. -/
theorem c7_forward_fill_and_moving_average_witness :
    2 < (sortedEcon econW).length ∧
    ∃ r : FeatRow,
      (economicFeaturesAsc (fun q => q) econW)[2]? = some r ∧
      r.interest_rate_10y = (((colIR econW).take (2 + 1)).filterMap id).getLast? ∧
      r.fx_brazil_usd = (((colBZ econW).take (2 + 1)).filterMap id).getLast? ∧
      r.fx_china_usd = (((colCH econW).take (2 + 1)).filterMap id).getLast? ∧
      r.avg_interest_rate_20d = sqlAvgOpt (windowSlice 19 2 (ffill (colIR econW))) ∧
      r.avg_fx_brazil_20d = sqlAvgOpt (windowSlice 19 2 (ffill (colBZ econW))) ∧
      r.avg_fx_china_20d = sqlAvgOpt (windowSlice 19 2 (ffill (colCH econW))) ∧
      (windowSlice 19 2 (ffill (colIR econW))).length = min (2 + 1) 20 ∧
      ((∀ v ∈ windowSlice 19 2 (ffill (colIR econW)), v ≠ none) →
        r.avg_interest_rate_20d =
          some (((windowSlice 19 2 (ffill (colIR econW))).filterMap id).sum /
            ((min (2 + 1) 20 : Nat) : Rat))) ∧
      ((∀ v ∈ windowSlice 19 2 (ffill (colBZ econW)), v ≠ none) →
        r.avg_fx_brazil_20d =
          some (((windowSlice 19 2 (ffill (colBZ econW))).filterMap id).sum /
            ((min (2 + 1) 20 : Nat) : Rat))) ∧
      ((∀ v ∈ windowSlice 19 2 (ffill (colCH econW)), v ≠ none) →
        r.avg_fx_china_20d =
          some (((windowSlice 19 2 (ffill (colCH econW))).filterMap id).sum /
            ((min (2 + 1) 20 : Nat) : Rat))) :=
  ⟨by decide, c7_forward_fill_and_moving_average econW (fun q => q) 2 (by decide)⟩
